import Mathlib

/-!
Shallow embedding of the JIRA-to-Excel export script
(`scripts/jira-to-excel.py`): Python values, the record normalizer
`format_issue_data`, the exporter `export_to_excel` (column widths and
summary sheet), and the query executor `get_jira_issues`.
-/

/-- A Python value as used by the script: `None`, strings, integers,
lists and string-keyed dicts (JSON-shaped data from the JIRA API). -/
inductive PyVal where
  | none : PyVal
  | str : String → PyVal
  | int : Int → PyVal
  | list : List PyVal → PyVal
  | dict : List (String × PyVal) → PyVal

/-- The Python exceptions the script's field accesses can raise. -/
inductive PyErr where
  | attributeError : PyErr
  | typeError : PyErr
  | indexError : PyErr
  | keyError : PyErr
  deriving DecidableEq, Repr

mutual

/-- Decidable equality on `PyVal` (the derive handler does not support
this nested inductive). -/
def PyVal.decEq : (a b : PyVal) → Decidable (a = b)
  | .none, .none => isTrue rfl
  | .str a, .str b =>
    match String.decEq a b with
    | isTrue h => isTrue (by rw [h])
    | isFalse h => isFalse (fun hh => h (PyVal.str.inj hh))
  | .int a, .int b =>
    match Int.decEq a b with
    | isTrue h => isTrue (by rw [h])
    | isFalse h => isFalse (fun hh => h (PyVal.int.inj hh))
  | .list a, .list b =>
    match PyVal.decEqList a b with
    | isTrue h => isTrue (by rw [h])
    | isFalse h => isFalse (fun hh => h (PyVal.list.inj hh))
  | .dict a, .dict b =>
    match PyVal.decEqDict a b with
    | isTrue h => isTrue (by rw [h])
    | isFalse h => isFalse (fun hh => h (PyVal.dict.inj hh))
  | .none, .str _ => isFalse PyVal.noConfusion
  | .none, .int _ => isFalse PyVal.noConfusion
  | .none, .list _ => isFalse PyVal.noConfusion
  | .none, .dict _ => isFalse PyVal.noConfusion
  | .str _, .none => isFalse PyVal.noConfusion
  | .str _, .int _ => isFalse PyVal.noConfusion
  | .str _, .list _ => isFalse PyVal.noConfusion
  | .str _, .dict _ => isFalse PyVal.noConfusion
  | .int _, .none => isFalse PyVal.noConfusion
  | .int _, .str _ => isFalse PyVal.noConfusion
  | .int _, .list _ => isFalse PyVal.noConfusion
  | .int _, .dict _ => isFalse PyVal.noConfusion
  | .list _, .none => isFalse PyVal.noConfusion
  | .list _, .str _ => isFalse PyVal.noConfusion
  | .list _, .int _ => isFalse PyVal.noConfusion
  | .list _, .dict _ => isFalse PyVal.noConfusion
  | .dict _, .none => isFalse PyVal.noConfusion
  | .dict _, .str _ => isFalse PyVal.noConfusion
  | .dict _, .int _ => isFalse PyVal.noConfusion
  | .dict _, .list _ => isFalse PyVal.noConfusion

/-- Decidable equality on lists of `PyVal`. -/
def PyVal.decEqList : (a b : List PyVal) → Decidable (a = b)
  | [], [] => isTrue rfl
  | [], _ :: _ => isFalse List.noConfusion
  | _ :: _, [] => isFalse List.noConfusion
  | x :: xs, y :: ys =>
    match PyVal.decEq x y with
    | isFalse h1 => isFalse (fun hh => h1 (List.cons.inj hh).1)
    | isTrue h1 =>
      match PyVal.decEqList xs ys with
      | isTrue h2 => isTrue (by rw [h1, h2])
      | isFalse h2 => isFalse (fun hh => h2 (List.cons.inj hh).2)

/-- Decidable equality on dict entry lists. -/
def PyVal.decEqDict : (a b : List (String × PyVal)) → Decidable (a = b)
  | [], [] => isTrue rfl
  | [], _ :: _ => isFalse List.noConfusion
  | _ :: _, [] => isFalse List.noConfusion
  | (k1, v1) :: xs, (k2, v2) :: ys =>
    if hk : k1 = k2 then
      match PyVal.decEq v1 v2 with
      | isFalse hv => isFalse (fun hh => hv (congrArg Prod.snd (List.cons.inj hh).1))
      | isTrue hv =>
        match PyVal.decEqDict xs ys with
        | isTrue ht => isTrue (by rw [hk, hv, ht])
        | isFalse ht => isFalse (fun hh => ht (List.cons.inj hh).2)
    else
      isFalse (fun hh => hk (congrArg Prod.fst (List.cons.inj hh).1))

end

instance : DecidableEq PyVal := PyVal.decEq

/-- Python truthiness for the embedded values. -/
def PyVal.truthy : PyVal → Bool
  | .none => false
  | .str s => s != ""
  | .int n => n != 0
  | .list l => !l.isEmpty
  | .dict d => !d.isEmpty

/-- Source: `v.get(k, dflt)`: Python `dict.get`; raises `AttributeError` when the
receiver is not a dict (e.g. `None.get`). -/
def PyVal.get (v : PyVal) (k : String) (dflt : PyVal) : Except PyErr PyVal :=
  match v with
  | .dict d => .ok ((List.lookup k d).getD dflt)
  | _ => .error .attributeError

/-- Source: `v[0]` in Python: first element of a list or string (`IndexError` when
empty), `KeyError` for a dict (no integer keys in this model),
`TypeError` otherwise. -/
def pyIndex0 (v : PyVal) : Except PyErr PyVal :=
  match v with
  | .list [] => .error .indexError
  | .list (x :: _) => .ok x
  | .str s =>
    match s.toList with
    | [] => .error .indexError
    | c :: _ => .ok (.str (String.singleton c))
  | .dict _ => .error .keyError
  | _ => .error .typeError

/-- Source: `v[:10]` in Python: prefix of a string or list, `TypeError` otherwise. -/
def pySlice10 (v : PyVal) : Except PyErr PyVal :=
  match v with
  | .str s => .ok (.str (s.take 10))
  | .list l => .ok (.list (l.take 10))
  | _ => .error .typeError

/-- Iterating a Python value (`for x in v`): lists yield their elements,
strings their characters, dicts their keys; anything else raises
`TypeError`. -/
def pyIter (v : PyVal) : Except PyErr (List PyVal) :=
  match v with
  | .list l => .ok l
  | .str s => .ok (s.toList.map (fun c => .str (String.singleton c)))
  | .dict d => .ok (d.map (fun p => .str p.1))
  | _ => .error .typeError

/-- Source: `sep.join` over a list of values: every element must be a string,
otherwise `TypeError` (as in Python). -/
def pyJoinList (sep : String) : List PyVal → Except PyErr (List String)
  | [] => .ok []
  | .str s :: rest => do
    let r ← pyJoinList sep rest
    pure (s :: r)
  | _ :: _ => .error .typeError

/-- Source: `sep.join(v)`: join an iterable of strings. -/
def pyJoin (sep : String) (v : PyVal) : Except PyErr PyVal := do
  let items ← pyIter v
  let ss ← pyJoinList sep items
  pure (.str (String.intercalate sep ss))

mutual

/-- Python `repr` of a value (used by `str` on containers). -/
def pyRepr : PyVal → String
  | .none => "None"
  | .str s => "'" ++ s ++ "'"
  | .int n => toString n
  | .list l => "[" ++ pyReprList l ++ "]"
  | .dict d => "\x7b" ++ pyReprDict d ++ "\x7d"

/-- Source: `repr` of the elements of a list, comma separated. -/
def pyReprList : List PyVal → String
  | [] => ""
  | [x] => pyRepr x
  | x :: xs => pyRepr x ++ ", " ++ pyReprList xs

/-- Source: `repr` of the entries of a dict, comma separated. -/
def pyReprDict : List (String × PyVal) → String
  | [] => ""
  | [(k, v)] => "'" ++ k ++ "': " ++ pyRepr v
  | (k, v) :: xs => "'" ++ k ++ "': " ++ pyRepr v ++ ", " ++ pyReprDict xs

end

/-- Python `str(v)` as applied to a cell value in `export_to_excel`. -/
def pyStr : PyVal → String
  | .str s => s
  | v => pyRepr v

/-! ## Query Executor (`get_jira_issues`) -/

/-- Outcome of the single `requests.post` call: either a transport-level
failure (no HTTP response) or an HTTP response with a status code and a
parsed JSON body. -/
inductive HttpResult where
  | transportError : String → HttpResult
  | response : Nat → PyVal → HttpResult

/-- The JSON payload `get_jira_issues` sends to the search endpoint. -/
def search_payload (jql_query : String) (max_results : Nat) : PyVal :=
  .dict [("jql", .str jql_query), ("maxResults", .int max_results),
    ("fields", .list [.str "key", .str "summary", .str "status", .str "assignee",
      .str "reporter", .str "created", .str "updated", .str "priority",
      .str "issuetype", .str "description", .str "labels", .str "components",
      .str "fixVersions", .str "resolution", .str "resolutiondate", .str "duedate"])]

/-- Source: `response.raise_for_status()` raises `HTTPError` exactly for 4xx/5xx
status codes. -/
def raise_for_status_fails (status : Nat) : Bool :=
  400 ≤ status && status < 600

/-- Source: `get_jira_issues`: posts the payload; any `RequestException`
(transport failure or `raise_for_status` on a 4xx/5xx response) is caught
and turned into `None`; otherwise the parsed JSON body is returned. -/
def get_jira_issues (jql_query : String) (max_results : Nat)
    (outcome : HttpResult) : Option PyVal :=
  let _payload := search_payload jql_query max_results
  match outcome with
  | .transportError _ => Option.none
  | .response status body =>
    if raise_for_status_fails status then Option.none else some body

/-! ## Record Normalizer (`format_issue_data`) -/

/-- Source: `assignee = fields.get('assignee')`;
`assignee_name = assignee.get('displayName') if assignee else 'Unassigned'`. -/
def assignee_name (fields : PyVal) : Except PyErr PyVal := do
  let assignee ← fields.get "assignee" PyVal.none
  if assignee.truthy then assignee.get "displayName" PyVal.none
  else pure (.str "Unassigned")

/-- Source: `reporter = fields.get('reporter')`;
`reporter_name = reporter.get('displayName') if reporter else 'Unknown'`. -/
def reporter_name (fields : PyVal) : Except PyErr PyVal := do
  let reporter ← fields.get "reporter" PyVal.none
  if reporter.truthy then reporter.get "displayName" PyVal.none
  else pure (.str "Unknown")

/-- Source: `status = fields.get('status', {})`; `status_name = status.get('name', 'Unknown')`. -/
def status_name (fields : PyVal) : Except PyErr PyVal := do
  let status ← fields.get "status" (.dict [])
  status.get "name" (.str "Unknown")

/-- Source: `priority = fields.get('priority', {})`; `priority_name = priority.get('name', 'Unknown')`. -/
def priority_name (fields : PyVal) : Except PyErr PyVal := do
  let priority ← fields.get "priority" (.dict [])
  priority.get "name" (.str "Unknown")

/-- Source: `issuetype = fields.get('issuetype', {})`; `issuetype_name = issuetype.get('name', 'Unknown')`. -/
def issuetype_name (fields : PyVal) : Except PyErr PyVal := do
  let issuetype ← fields.get "issuetype" (.dict [])
  issuetype.get "name" (.str "Unknown")

/-- The comprehension `[comp.get('name') for comp in components]`. -/
def getNameList : List PyVal → Except PyErr (List PyVal)
  | [] => .ok []
  | comp :: rest => do
    let n ← comp.get "name" PyVal.none
    let ns ← getNameList rest
    pure (n :: ns)

/-- Source: `components = fields.get('components', [])`;
`components_list = [comp.get('name') for comp in components]`;
`components_str = ', '.join(components_list) if components_list else 'None'`. -/
def components_str (fields : PyVal) : Except PyErr PyVal := do
  let components ← fields.get "components" (.list [])
  let comps ← pyIter components
  let components_list ← getNameList comps
  if components_list.isEmpty then pure (.str "None")
  else pyJoin ", " (.list components_list)

/-- Source: `labels = fields.get('labels', [])`;
`labels_str = ', '.join(labels) if labels else 'None'`. -/
def labels_str (fields : PyVal) : Except PyErr PyVal := do
  let labels ← fields.get "labels" (.list [])
  if labels.truthy then pyJoin ", " labels
  else pure (.str "None")

/-- Source: `created_date = fields.get('created', '')[:10] if fields.get('created') else ''`. -/
def created_date (fields : PyVal) : Except PyErr PyVal := do
  let g ← fields.get "created" PyVal.none
  if g.truthy then do
    let v ← fields.get "created" (.str "")
    pySlice10 v
  else pure (.str "")

/-- Source: `updated_date = fields.get('updated', '')[:10] if fields.get('updated') else ''`. -/
def updated_date (fields : PyVal) : Except PyErr PyVal := do
  let g ← fields.get "updated" PyVal.none
  if g.truthy then do
    let v ← fields.get "updated" (.str "")
    pySlice10 v
  else pure (.str "")

/-- Source: `due_date = fields.get('duedate', '') if fields.get('duedate') else ''`. -/
def due_date (fields : PyVal) : Except PyErr PyVal := do
  let g ← fields.get "duedate" PyVal.none
  if g.truthy then fields.get "duedate" (.str "")
  else pure (.str "")

/-- The `'Description'` entry:
`fields.get('description', {}).get('content', [{}])[0].get('content', [{}])[0].get('text', '')
 if fields.get('description') else ''`. -/
def extract_description (fields : PyVal) : Except PyErr PyVal := do
  let g ← fields.get "description" PyVal.none
  if g.truthy then do
    let d ← fields.get "description" (.dict [])
    let c1 ← d.get "content" (.list [.dict []])
    let n1 ← pyIndex0 c1
    let c2 ← n1.get "content" (.list [.dict []])
    let n2 ← pyIndex0 c2
    n2.get "text" (.str "")
  else pure (.str "")

/-- The flat row (`issue_dict`) built by `format_issue_data` for one issue. -/
structure IssueRow where
  key : PyVal
  summary : PyVal
  status : PyVal
  assignee : PyVal
  reporter : PyVal
  priority : PyVal
  issueType : PyVal
  components : PyVal
  labels : PyVal
  created : PyVal
  updated : PyVal
  dueDate : PyVal
  description : PyVal
  deriving DecidableEq

/-- The body of `format_issue_data`'s loop for one `issue`: field
extractions in source order, then the `issue_dict` literal. -/
def format_issue (issue : PyVal) : Except PyErr IssueRow := do
  let fields ← issue.get "fields" (.dict [])
  let an ← assignee_name fields
  let rn ← reporter_name fields
  let sn ← status_name fields
  let pn ← priority_name fields
  let tn ← issuetype_name fields
  let cs ← components_str fields
  let ls ← labels_str fields
  let cd ← created_date fields
  let ud ← updated_date fields
  let dd ← due_date fields
  let k ← issue.get "key" (.str "")
  let sm ← fields.get "summary" (.str "")
  let ds ← extract_description fields
  pure { key := k, summary := sm, status := sn, assignee := an,
         reporter := rn, priority := pn, issueType := tn,
         components := cs, labels := ls, created := cd, updated := ud,
         dueDate := dd, description := ds }

/-- The `for issue in ...` loop of `format_issue_data`: appends one row
per issue, in order; an exception from any row propagates. -/
def format_issues_loop : List PyVal → Except PyErr (List IssueRow)
  | [] => .ok []
  | issue :: rest => do
    let r ← format_issue issue
    let rs ← format_issues_loop rest
    pure (r :: rs)

/-- Source: `format_issue_data(issues_data)`: iterates `issues_data.get('issues', [])`
and collects one flat row per issue. -/
def format_issue_data (issues_data : PyVal) : Except PyErr (List IssueRow) := do
  let issues ← issues_data.get "issues" (.list [])
  let items ← pyIter issues
  format_issues_loop items

/-! ## Tabular Exporter (`export_to_excel`) -/

/-- The data sheet's header row: the keys of `issue_dict`, in order. -/
def headerTitles : List String :=
  ["Key", "Summary", "Status", "Assignee", "Reporter", "Priority", "Issue Type",
   "Components", "Labels", "Created", "Updated", "Due Date", "Description"]

/-- One written worksheet row: the 13 cell values of a flat row, rendered
as `str(cell.value)` renders them when read back. -/
def renderRow (r : IssueRow) : List String :=
  [pyStr r.key, pyStr r.summary, pyStr r.status, pyStr r.assignee,
   pyStr r.reporter, pyStr r.priority, pyStr r.issueType, pyStr r.components,
   pyStr r.labels, pyStr r.created, pyStr r.updated, pyStr r.dueDate,
   pyStr r.description]

/-- The data rows `df.to_excel` writes below the header: one per input row. -/
def dataRows (rows : List IssueRow) : List (List String) :=
  rows.map renderRow

/-- The full data sheet (`'JIRA Issues'`): header row then the data rows. -/
def dataSheet (rows : List IssueRow) : List (List String) :=
  headerTitles :: dataRows rows

/-- The cells of column `j` of the data sheet, header cell included. -/
def columnCells (rows : List IssueRow) (j : Nat) : List String :=
  (dataSheet rows).map (fun r => r.getD j "")

/-- The `max_length` loop of `export_to_excel`:
`for cell in column: if len(str(cell.value)) > max_length: max_length = len(...)`,
starting from `max_length = 0`. -/
def maxCellLen (cells : List String) : Nat :=
  cells.foldl (fun m c => if c.length > m then c.length else m) 0

/-- Source: `adjusted_width = min(max_length + 2, 50)`. -/
def adjustedWidth (cells : List String) : Nat :=
  min (maxCellLen cells + 2) 50

/-- Source: `len(set(...))` over a list of values. -/
def uniqueCount (l : List PyVal) : Nat :=
  l.dedup.length

/-- The summary sheet's five `(Metric, Value)` rows, built by
`export_to_excel` from the full row list, the export timestamp and the
configured project key. -/
def summarySheet (rows : List IssueRow) (exportDate projectKey : String) :
    List (String × PyVal) :=
  [("Total Issues", .int rows.length),
   ("Export Date", .str exportDate),
   ("Project", .str projectKey),
   ("Unique Assignees", .int (uniqueCount (rows.map IssueRow.assignee))),
   ("Unique Statuses", .int (uniqueCount (rows.map IssueRow.status)))]

/-! ## A structured family of well-shaped raw issues

`StructFields` describes raw issues whose sub-records, when present, have
the shape the script assumes: name-carrying dicts for status / priority /
issue type, string-valued person dicts for assignee / reporter,
`name`-carrying component dicts, string labels, string timestamps, and the
one-paragraph / one-text-run description document. `Option.none` means the
key is absent from `fields`. -/
structure StructFields where
  summary : Option String
  statusName : Option (Option String)
  priorityName : Option (Option String)
  issuetypeName : Option (Option String)
  assignee : Option (List (String × String))
  reporter : Option (List (String × String))
  components : Option (List String)
  labels : Option (List String)
  created : Option String
  updated : Option String
  duedate : Option String
  description : Option String

/-- A status / priority / issuetype sub-record: a dict that either carries
a `name` or is empty. -/
def nameDict : Option String → PyVal
  | Option.none => .dict []
  | some s => .dict [("name", .str s)]

/-- An assignee / reporter sub-record: a dict of string entries. -/
def personDict (es : List (String × String)) : PyVal :=
  .dict (es.map (fun p => (p.1, .str p.2)))

/-- One component sub-record carrying a `name`. -/
def compDict (c : String) : PyVal :=
  .dict [("name", .str c)]

/-- The rich-text description document shape the script assumes: one
content node holding one text run. -/
def descDoc (t : String) : PyVal :=
  .dict [("content", .list [.dict [("content", .list [.dict [("text", .str t)]])]])]

/-- A dict entry that is present or absent. -/
def optEntry (k : String) : Option PyVal → List (String × PyVal)
  | Option.none => []
  | some v => [(k, v)]

/-- The `fields` dict of a structured issue. -/
def strFields (f : StructFields) : PyVal :=
  .dict (optEntry "summary" (f.summary.map .str)
    ++ optEntry "status" (f.statusName.map nameDict)
    ++ optEntry "priority" (f.priorityName.map nameDict)
    ++ optEntry "issuetype" (f.issuetypeName.map nameDict)
    ++ optEntry "assignee" (f.assignee.map personDict)
    ++ optEntry "reporter" (f.reporter.map personDict)
    ++ optEntry "components" (f.components.map (fun l => .list (l.map compDict)))
    ++ optEntry "labels" (f.labels.map (fun l => .list (l.map .str)))
    ++ optEntry "created" (f.created.map .str)
    ++ optEntry "updated" (f.updated.map .str)
    ++ optEntry "duedate" (f.duedate.map .str)
    ++ optEntry "description" (f.description.map descDoc))

/-- A structured raw issue: an optional `key` and its `fields`. -/
def strIssue (k : Option String) (f : StructFields) : PyVal :=
  .dict (optEntry "key" (k.map .str) ++ [("fields", strFields f)])

/-- The structured issue with every optional part absent. -/
def emptyFields : StructFields where
  summary := Option.none
  statusName := Option.none
  priorityName := Option.none
  issuetypeName := Option.none
  assignee := Option.none
  reporter := Option.none
  components := Option.none
  labels := Option.none
  created := Option.none
  updated := Option.none
  duedate := Option.none
  description := Option.none

/-- Expected assignee / reporter output: the default when the sub-record
is absent or empty, its `displayName` when it has one, Python `None`
otherwise. -/
def expPerson (dflt : String) : Option (List (String × String)) → PyVal
  | Option.none => .str dflt
  | some es =>
    if es.isEmpty then .str dflt
    else (List.lookup "displayName" es).elim PyVal.none PyVal.str

/-- Expected components / labels output: `'None'` when empty, the `', '`
join otherwise. -/
def expJoin (l : List String) : String :=
  if l.isEmpty then "None" else String.intercalate ", " l

/-- Expected created / updated output: first ten characters when present
and non-empty, empty string otherwise. -/
def expDate10 : Option String → PyVal
  | Option.none => .str ""
  | some s => if s == "" then .str "" else .str (s.take 10)

/-- Expected due-date output: passed through verbatim when present and
non-empty, empty string otherwise. -/
def expDue : Option String → PyVal
  | Option.none => .str ""
  | some s => if s == "" then .str "" else .str s

/-- The flat row `format_issue` produces on a structured issue. -/
def expectedRow (k : Option String) (f : StructFields) : IssueRow where
  key := .str (k.getD "")
  summary := .str (f.summary.getD "")
  status := .str ((f.statusName.bind id).getD "Unknown")
  assignee := expPerson "Unassigned" f.assignee
  reporter := expPerson "Unknown" f.reporter
  priority := .str ((f.priorityName.bind id).getD "Unknown")
  issueType := .str ((f.issuetypeName.bind id).getD "Unknown")
  components := .str (expJoin (f.components.getD []))
  labels := .str (expJoin (f.labels.getD []))
  created := expDate10 f.created
  updated := expDate10 f.updated
  dueDate := expDue f.duedate
  description := .str (f.description.getD "")

/-- Is the field value a Python string? -/
def PyVal.isStr : PyVal → Bool
  | .str _ => true
  | _ => false

/-- A person sub-record that is present, truthy, and lacks `displayName`
(the shape on which the script produces `None` instead of a string). -/
def presentWithoutDisplayName : Option (List (String × String)) → Bool
  | Option.none => false
  | some es => !es.isEmpty && (List.lookup "displayName" es).isNone

/-! ## Concrete inputs used by the counterexamples and witnesses -/

/-- The end-to-end scenario issue of the specification (§8). -/
def c5issue : PyVal := .dict [("key", .str "P-1"), ("fields", .dict [
  ("summary", .str "Fix bug"), ("status", .dict [("name", .str "Open")]),
  ("assignee", PyVal.none), ("reporter", .dict [("displayName", .str "Alice")]),
  ("created", .str "2024-01-05T10:00:00Z"), ("labels", .list []),
  ("components", .list [.dict [("name", .str "API")]])])]

/-- An issue whose description has a `content` key holding an empty list. -/
def c1issue : PyVal := .dict [("key", .str "D-1"),
  ("fields", .dict [("description", .dict [("content", .list [])])])]

/-- An issue whose assignee sub-record is a non-empty dict without
`displayName`. -/
def c2issue : PyVal := .dict [("key", .str "A-1"),
  ("fields", .dict [("assignee", .dict [("accountId", .str "u1")])])]

/-- An issue whose `status` entry is present but `null`. -/
def c3issueStatusNull : PyVal := .dict [("key", .str "S-1"),
  ("fields", .dict [("status", PyVal.none)])]

/-- An issue one of whose components lacks a `name`. -/
def c3issueCompNoName : PyVal := .dict [("key", .str "S-2"),
  ("fields", .dict [("components", .list [.dict [("id", .str "7")]])])]

/-- Structured fields whose assignee sub-record is present and truthy but
lacks `displayName`. -/
def c2fields : StructFields :=
  { emptyFields with assignee := some [("accountId", "u1")] }

/-- The all-defaults flat row produced for an issue with the given key and
no (or empty) `fields`. -/
def defaultRow (key : String) : IssueRow where
  key := .str key
  summary := .str ""
  status := .str "Unknown"
  assignee := .str "Unassigned"
  reporter := .str "Unknown"
  priority := .str "Unknown"
  issueType := .str "Unknown"
  components := .str "None"
  labels := .str "None"
  created := .str ""
  updated := .str ""
  dueDate := .str ""
  description := .str ""

/-! ## Lookup helpers for the structured family -/

theorem lookup_optEntry_append (k k' : String) (v : Option PyVal)
    (rest : List (String × PyVal)) :
    List.lookup k (optEntry k' v ++ rest) =
      if k == k' then
        match v with
        | some x => some x
        | Option.none => List.lookup k rest
      else List.lookup k rest := by
  cases v with
  | none => cases h : k == k' <;> simp [optEntry, h]
  | some x => cases h : k == k' <;> simp [optEntry, List.lookup_cons, h]

theorem lookup_optEntry (k k' : String) (v : Option PyVal) :
    List.lookup k (optEntry k' v) =
      if k == k' then v else Option.none := by
  cases v with
  | none => cases h : k == k' <;> simp [optEntry, h]
  | some x => cases h : k == k' <;> simp [optEntry, List.lookup_cons, h]

theorem get_strFields_summary (f : StructFields) (dflt : PyVal) :
    (strFields f).get "summary" dflt =
      .ok ((f.summary.map PyVal.str).getD dflt) := by
  cases hs : f.summary <;>
    simp [strFields, PyVal.get, lookup_optEntry_append, lookup_optEntry, hs]

theorem get_strFields_status (f : StructFields) (dflt : PyVal) :
    (strFields f).get "status" dflt =
      .ok ((f.statusName.map nameDict).getD dflt) := by
  cases hs : f.statusName <;>
    simp [strFields, PyVal.get, lookup_optEntry_append, lookup_optEntry, hs]

theorem get_strFields_priority (f : StructFields) (dflt : PyVal) :
    (strFields f).get "priority" dflt =
      .ok ((f.priorityName.map nameDict).getD dflt) := by
  cases hs : f.priorityName <;>
    simp [strFields, PyVal.get, lookup_optEntry_append, lookup_optEntry, hs]

theorem get_strFields_issuetype (f : StructFields) (dflt : PyVal) :
    (strFields f).get "issuetype" dflt =
      .ok ((f.issuetypeName.map nameDict).getD dflt) := by
  cases hs : f.issuetypeName <;>
    simp [strFields, PyVal.get, lookup_optEntry_append, lookup_optEntry, hs]

theorem get_strFields_assignee (f : StructFields) (dflt : PyVal) :
    (strFields f).get "assignee" dflt =
      .ok ((f.assignee.map personDict).getD dflt) := by
  cases hs : f.assignee <;>
    simp [strFields, PyVal.get, lookup_optEntry_append, lookup_optEntry, hs]

theorem get_strFields_reporter (f : StructFields) (dflt : PyVal) :
    (strFields f).get "reporter" dflt =
      .ok ((f.reporter.map personDict).getD dflt) := by
  cases hs : f.reporter <;>
    simp [strFields, PyVal.get, lookup_optEntry_append, lookup_optEntry, hs]

theorem get_strFields_components (f : StructFields) (dflt : PyVal) :
    (strFields f).get "components" dflt =
      .ok ((f.components.map (fun l => PyVal.list (l.map compDict))).getD dflt) := by
  cases hs : f.components <;>
    simp [strFields, PyVal.get, lookup_optEntry_append, lookup_optEntry, hs]

theorem get_strFields_labels (f : StructFields) (dflt : PyVal) :
    (strFields f).get "labels" dflt =
      .ok ((f.labels.map (fun l => PyVal.list (l.map PyVal.str))).getD dflt) := by
  cases hs : f.labels <;>
    simp [strFields, PyVal.get, lookup_optEntry_append, lookup_optEntry, hs]

theorem get_strFields_created (f : StructFields) (dflt : PyVal) :
    (strFields f).get "created" dflt =
      .ok ((f.created.map PyVal.str).getD dflt) := by
  cases hs : f.created <;>
    simp [strFields, PyVal.get, lookup_optEntry_append, lookup_optEntry, hs]

theorem get_strFields_updated (f : StructFields) (dflt : PyVal) :
    (strFields f).get "updated" dflt =
      .ok ((f.updated.map PyVal.str).getD dflt) := by
  cases hs : f.updated <;>
    simp [strFields, PyVal.get, lookup_optEntry_append, lookup_optEntry, hs]

theorem get_strFields_duedate (f : StructFields) (dflt : PyVal) :
    (strFields f).get "duedate" dflt =
      .ok ((f.duedate.map PyVal.str).getD dflt) := by
  cases hs : f.duedate <;>
    simp [strFields, PyVal.get, lookup_optEntry_append, lookup_optEntry, hs]

theorem get_strFields_description (f : StructFields) (dflt : PyVal) :
    (strFields f).get "description" dflt =
      .ok ((f.description.map descDoc).getD dflt) := by
  cases hs : f.description <;>
    simp [strFields, PyVal.get, lookup_optEntry_append, lookup_optEntry, hs]

theorem get_strIssue_key (k : Option String) (f : StructFields) (dflt : PyVal) :
    (strIssue k f).get "key" dflt = .ok ((k.map PyVal.str).getD dflt) := by
  cases hk : k <;>
    simp [strIssue, PyVal.get, lookup_optEntry_append, lookup_optEntry,
      List.lookup_cons, hk]

theorem get_strIssue_fields (k : Option String) (f : StructFields) (dflt : PyVal) :
    (strIssue k f).get "fields" dflt = .ok (strFields f) := by
  cases hk : k <;>
    simp [strIssue, PyVal.get, lookup_optEntry_append, lookup_optEntry,
      List.lookup_cons, hk]

/-! ## Per-field behaviour on the structured family -/

theorem pure_except {ε α} (a : α) : (pure a : Except ε α) = Except.ok a := rfl

theorem lookup_personDict (k : String) (es : List (String × String)) :
    List.lookup k (es.map (fun p => (p.1, PyVal.str p.2))) =
      (List.lookup k es).map PyVal.str := by
  induction es with
  | nil => rfl
  | cons p rest ih =>
    obtain ⟨k1, v1⟩ := p
    simp only [List.map_cons, List.lookup_cons]
    cases h : k == k1 <;> simp [h, ih]

theorem lookup_personDict_cons (k : String) (p : String × String)
    (rest : List (String × String)) :
    List.lookup k ((p.1, PyVal.str p.2) :: rest.map (fun q => (q.1, PyVal.str q.2))) =
      (List.lookup k (p :: rest)).map PyVal.str :=
  lookup_personDict k (p :: rest)

theorem assignee_name_strFields (f : StructFields) :
    assignee_name (strFields f) = .ok (expPerson "Unassigned" f.assignee) := by
  unfold assignee_name
  rw [get_strFields_assignee]
  cases ha : f.assignee with
  | none => rfl
  | some es =>
    cases es with
    | nil => rfl
    | cons p rest =>
      show Except.ok ((List.lookup "displayName"
          ((p :: rest).map (fun q => (q.1, PyVal.str q.2)))).getD PyVal.none) =
        Except.ok (expPerson "Unassigned" (some (p :: rest)))
      rw [lookup_personDict]
      cases h : List.lookup "displayName" (p :: rest) <;> simp [expPerson, h]

theorem reporter_name_strFields (f : StructFields) :
    reporter_name (strFields f) = .ok (expPerson "Unknown" f.reporter) := by
  unfold reporter_name
  rw [get_strFields_reporter]
  cases ha : f.reporter with
  | none => rfl
  | some es =>
    cases es with
    | nil => rfl
    | cons p rest =>
      show Except.ok ((List.lookup "displayName"
          ((p :: rest).map (fun q => (q.1, PyVal.str q.2)))).getD PyVal.none) =
        Except.ok (expPerson "Unknown" (some (p :: rest)))
      rw [lookup_personDict]
      cases h : List.lookup "displayName" (p :: rest) <;> simp [expPerson, h]

theorem status_name_strFields (f : StructFields) :
    status_name (strFields f) = .ok (.str ((f.statusName.bind id).getD "Unknown")) := by
  unfold status_name
  rw [get_strFields_status]
  cases hs : f.statusName with
  | none => rfl
  | some o => cases o <;> rfl

theorem priority_name_strFields (f : StructFields) :
    priority_name (strFields f) = .ok (.str ((f.priorityName.bind id).getD "Unknown")) := by
  unfold priority_name
  rw [get_strFields_priority]
  cases hs : f.priorityName with
  | none => rfl
  | some o => cases o <;> rfl

theorem issuetype_name_strFields (f : StructFields) :
    issuetype_name (strFields f) = .ok (.str ((f.issuetypeName.bind id).getD "Unknown")) := by
  unfold issuetype_name
  rw [get_strFields_issuetype]
  cases hs : f.issuetypeName with
  | none => rfl
  | some o => cases o <;> rfl

theorem getNameList_compDicts (l : List String) :
    getNameList (l.map compDict) = .ok (l.map PyVal.str) := by
  induction l with
  | nil => rfl
  | cons c rest ih =>
    simp [getNameList, compDict, PyVal.get, Bind.bind, Except.bind, pure_except, ih]

theorem getNameList_compDicts_cons (c : String) (rest : List String) :
    getNameList (compDict c :: rest.map compDict) =
      .ok (PyVal.str c :: rest.map PyVal.str) :=
  getNameList_compDicts (c :: rest)

theorem pyJoinList_map_str (sep : String) (l : List String) :
    pyJoinList sep (l.map PyVal.str) = .ok l := by
  induction l with
  | nil => rfl
  | cons s rest ih =>
    simp [pyJoinList, Bind.bind, Except.bind, pure_except, ih]

theorem pyJoin_strs (sep : String) (l : List String) :
    pyJoin sep (.list (l.map PyVal.str)) = .ok (.str (String.intercalate sep l)) := by
  simp [pyJoin, pyIter, Bind.bind, Except.bind, pure_except, pyJoinList_map_str]

theorem pyJoin_strs_cons (sep s : String) (rest : List String) :
    pyJoin sep (.list (PyVal.str s :: rest.map PyVal.str)) =
      .ok (.str (String.intercalate sep (s :: rest))) :=
  pyJoin_strs sep (s :: rest)

theorem components_str_strFields (f : StructFields) :
    components_str (strFields f) = .ok (.str (expJoin (f.components.getD []))) := by
  unfold components_str
  rw [get_strFields_components]
  cases hc : f.components with
  | none => rfl
  | some l =>
    cases l with
    | nil => rfl
    | cons c rest =>
      simp [Bind.bind, Except.bind, pure_except, pyIter,
        getNameList_compDicts_cons, pyJoin_strs_cons, expJoin]

theorem labels_str_strFields (f : StructFields) :
    labels_str (strFields f) = .ok (.str (expJoin (f.labels.getD []))) := by
  unfold labels_str
  rw [get_strFields_labels]
  cases hl : f.labels with
  | none => rfl
  | some l =>
    cases l with
    | nil => rfl
    | cons s rest =>
      simp [Bind.bind, Except.bind, pure_except, PyVal.truthy,
        pyJoin_strs_cons, expJoin]

theorem created_date_strFields (f : StructFields) :
    created_date (strFields f) = .ok (expDate10 f.created) := by
  unfold created_date
  simp only [get_strFields_created]
  cases hc : f.created with
  | none => rfl
  | some s =>
    by_cases h : s = ""
    · subst h; rfl
    · simp [Bind.bind, Except.bind, pure_except, PyVal.truthy, pySlice10,
        expDate10, h]

theorem updated_date_strFields (f : StructFields) :
    updated_date (strFields f) = .ok (expDate10 f.updated) := by
  unfold updated_date
  simp only [get_strFields_updated]
  cases hc : f.updated with
  | none => rfl
  | some s =>
    by_cases h : s = ""
    · subst h; rfl
    · simp [Bind.bind, Except.bind, pure_except, PyVal.truthy, expDate10, h,
        pySlice10]

theorem due_date_strFields (f : StructFields) :
    due_date (strFields f) = .ok (expDue f.duedate) := by
  unfold due_date
  simp only [get_strFields_duedate]
  cases hc : f.duedate with
  | none => rfl
  | some s =>
    by_cases h : s = ""
    · subst h; rfl
    · simp [Bind.bind, Except.bind, pure_except, PyVal.truthy, expDue, h]

theorem extract_description_strFields (f : StructFields) :
    extract_description (strFields f) = .ok (.str (f.description.getD "")) := by
  unfold extract_description
  simp only [get_strFields_description]
  cases hd : f.description with
  | none => rfl
  | some t => rfl

theorem map_str_getD (o : Option String) (d : String) :
    (o.map PyVal.str).getD (.str d) = .str (o.getD d) := by
  cases o <;> rfl

/-- Bridge: on every structured issue the normalizer succeeds and returns
exactly the expected flat row. -/
theorem format_issue_strIssue (k : Option String) (f : StructFields) :
    format_issue (strIssue k f) = .ok (expectedRow k f) := by
  unfold format_issue
  simp [get_strIssue_fields, get_strIssue_key, assignee_name_strFields,
    reporter_name_strFields, status_name_strFields, priority_name_strFields,
    issuetype_name_strFields, components_str_strFields, labels_str_strFields,
    created_date_strFields, updated_date_strFields, due_date_strFields,
    extract_description_strFields, get_strFields_summary, map_str_getD,
    Bind.bind, Except.bind, pure_except, expectedRow]

/-! ## Further helper lemmas -/

theorem isStr_expDate10 (o : Option String) : (expDate10 o).isStr = true := by
  cases o with
  | none => rfl
  | some s => by_cases h : s = "" <;> simp [expDate10, PyVal.isStr, h]

theorem isStr_expDue (o : Option String) : (expDue o).isStr = true := by
  cases o with
  | none => rfl
  | some s => by_cases h : s = "" <;> simp [expDue, PyVal.isStr, h]

theorem expPerson_isStr (dflt : String) (o : Option (List (String × String))) :
    (expPerson dflt o).isStr = !presentWithoutDisplayName o ∧
    (presentWithoutDisplayName o = true → expPerson dflt o = PyVal.none) := by
  cases o with
  | none => simp [expPerson, presentWithoutDisplayName, PyVal.isStr]
  | some es =>
    cases es with
    | nil => simp [expPerson, presentWithoutDisplayName, PyVal.isStr]
    | cons p rest =>
      cases h : List.lookup "displayName" (p :: rest) <;>
        simp [expPerson, presentWithoutDisplayName, PyVal.isStr, h]

theorem if_gt_eq_max (m x : Nat) : (if x > m then x else m) = max m x := by
  rcases le_or_lt x m with h | h
  · rw [if_neg (not_lt.mpr h), max_eq_left h]
  · rw [if_pos h, max_eq_right h.le]

theorem foldl_maxCell (cells : List String) : ∀ a : Nat,
    cells.foldl (fun m c => if c.length > m then c.length else m) a =
      max a ((cells.map String.length).foldr max 0) := by
  induction cells with
  | nil => intro a; simp
  | cons c rest ih =>
    intro a
    simp only [List.foldl_cons, List.map_cons, List.foldr_cons]
    rw [ih, if_gt_eq_max, max_assoc]

theorem maxCellLen_eq_foldr (cells : List String) :
    maxCellLen cells = (cells.map String.length).foldr max 0 := by
  unfold maxCellLen
  rw [foldl_maxCell]
  simp

theorem format_issues_loop_ok (issues : List PyVal) (rows : List IssueRow)
    (h : format_issues_loop issues = .ok rows) :
    rows.length = issues.length ∧
    ∀ i : Fin issues.length, ∀ hi : i.val < rows.length,
      format_issue (issues.get i) = .ok (rows.get ⟨i.val, hi⟩) := by
  induction issues generalizing rows with
  | nil =>
    simp [format_issues_loop] at h
    subst h
    exact ⟨rfl, fun i _ => (Nat.not_lt_zero _ i.isLt).elim⟩
  | cons issue rest ih =>
    unfold format_issues_loop at h
    cases hr : format_issue issue with
    | error e => rw [hr] at h; simp [Bind.bind, Except.bind] at h
    | ok r =>
      rw [hr] at h
      cases hrs : format_issues_loop rest with
      | error e => rw [hrs] at h; simp [Bind.bind, Except.bind] at h
      | ok rs =>
        rw [hrs] at h
        simp only [Bind.bind, Except.bind, pure_except] at h
        obtain rfl : r :: rs = rows := Except.ok.inj h
        refine ⟨by simp [(ih rs hrs).1], ?_⟩
        intro i hi
        rcases i with ⟨iv, hlt⟩
        cases iv with
        | zero => simpa using hr
        | succ n =>
          have hn := (ih rs hrs).2 ⟨n, by simpa using hlt⟩ (by simpa using hi)
          simpa using hn

/-! ## Claim theorems -/

/-- C1 (corrected): the Description output equals the text of the first
content block of the first content node when that full nested path exists;
it equals the empty string when the description is absent or falsy, or
when the `content` key is missing at either nesting level (the `[{}]`
defaults apply); but a description whose `content` list is present and
empty raises `IndexError` instead of defaulting. -/
theorem C1_description_extraction (fs : List (String × PyVal)) :
    (List.lookup "description" fs = Option.none →
      extract_description (.dict fs) = .ok (.str "")) ∧
    (∀ d, List.lookup "description" fs = some d → d.truthy = false →
      extract_description (.dict fs) = .ok (.str "")) ∧
    (∀ ds, List.lookup "description" fs = some (.dict ds) →
      List.lookup "content" ds = Option.none →
      extract_description (.dict fs) = .ok (.str "")) ∧
    (∀ ds n1 rest n2 rest2 t,
      List.lookup "description" fs = some (.dict ds) →
      List.lookup "content" ds = some (.list (.dict n1 :: rest)) →
      List.lookup "content" n1 = some (.list (.dict n2 :: rest2)) →
      List.lookup "text" n2 = some (.str t) →
      extract_description (.dict fs) = .ok (.str t)) ∧
    (∀ ds, List.lookup "description" fs = some (.dict ds) →
      List.lookup "content" ds = some (.list []) →
      extract_description (.dict fs) = .error .indexError) := by
  refine ⟨?_, ?_, ?_, ?_, ?_⟩
  · intro h
    simp [extract_description, PyVal.get, h, Bind.bind, Except.bind,
      PyVal.truthy, pure_except]
  · intro d h ht
    simp [extract_description, PyVal.get, h, ht, Bind.bind, Except.bind, pure_except]
  · intro ds h hc
    cases ds with
    | nil => simp [extract_description, PyVal.get, h, Bind.bind, Except.bind,
        PyVal.truthy, pure_except]
    | cons e es =>
      simp [extract_description, PyVal.get, h, hc, Bind.bind, Except.bind,
        PyVal.truthy, pyIndex0, pure_except]
  · intro ds n1 rest n2 rest2 t h hc hc2 ht
    cases ds with
    | nil => simp [List.lookup] at hc
    | cons e es =>
      simp [extract_description, PyVal.get, h, hc, hc2, ht, Bind.bind,
        Except.bind, PyVal.truthy, pyIndex0, pure_except]
  · intro ds h hc
    cases ds with
    | nil => simp [List.lookup] at hc
    | cons e es =>
      simp [extract_description, PyVal.get, h, hc, Bind.bind, Except.bind,
        PyVal.truthy, pyIndex0, pure_except]

/-- C1 witness: a well-shaped one-paragraph / one-text-run description
extracts its text. -/
theorem C1_description_witness :
    extract_description (.dict [("description", descDoc "hello")]) = .ok (.str "hello") :=
  (C1_description_extraction [("description", descDoc "hello")]).2.2.2.1
    [("content", .list [.dict [("content", .list [.dict [("text", .str "hello")]])]])]
    [("content", .list [.dict [("text", .str "hello")]])] []
    [("text", .str "hello")] [] "hello" rfl rfl rfl rfl

/-- C1 counterexample: on an issue whose description carries a `content`
key holding an empty list, normalization of the row raises `IndexError`
instead of producing an empty-string Description. -/
theorem C1_description_counterexample :
    format_issue c1issue = .error .indexError := rfl

/-- C2 (corrected): on every structured issue, every row field except
Assignee and Reporter is a string; Assignee (resp. Reporter) is a string
unless the assignee (resp. reporter) sub-record is present, truthy, and
lacks `displayName`, in which case the field is Python `None`. -/
theorem C2_fields_are_strings (k : Option String) (f : StructFields) (r : IssueRow)
    (h : format_issue (strIssue k f) = .ok r) :
    r.key.isStr = true ∧ r.summary.isStr = true ∧ r.status.isStr = true ∧
    r.priority.isStr = true ∧ r.issueType.isStr = true ∧
    r.components.isStr = true ∧ r.labels.isStr = true ∧
    r.created.isStr = true ∧ r.updated.isStr = true ∧ r.dueDate.isStr = true ∧
    r.description.isStr = true ∧
    r.assignee.isStr = !presentWithoutDisplayName f.assignee ∧
    r.reporter.isStr = !presentWithoutDisplayName f.reporter ∧
    (presentWithoutDisplayName f.assignee = true → r.assignee = PyVal.none) ∧
    (presentWithoutDisplayName f.reporter = true → r.reporter = PyVal.none) := by
  rw [format_issue_strIssue] at h
  obtain rfl : expectedRow k f = r := Except.ok.inj h
  exact ⟨rfl, rfl, rfl, rfl, rfl, rfl, rfl,
    isStr_expDate10 f.created, isStr_expDate10 f.updated, isStr_expDue f.duedate,
    rfl,
    (expPerson_isStr "Unassigned" f.assignee).1,
    (expPerson_isStr "Unknown" f.reporter).1,
    (expPerson_isStr "Unassigned" f.assignee).2,
    (expPerson_isStr "Unknown" f.reporter).2⟩

/-- C2 witness: the Assignee field of the row normalized from an issue
whose assignee record lacks `displayName` is Python `None`. -/
theorem C2_fields_witness :
    (expectedRow (some "A-1") c2fields).assignee = PyVal.none :=
  (C2_fields_are_strings (some "A-1") c2fields (expectedRow (some "A-1") c2fields)
    (by rfl)).2.2.2.2.2.2.2.2.2.2.2.2.2.1 (by rfl)

/-- C2 counterexample: a truthy assignee sub-record without `displayName`
yields Assignee = `None`, not a string. -/
theorem C2_fields_counterexample :
    Except.map IssueRow.assignee (format_issue c2issue) = .ok PyVal.none ∧
    Except.map (fun r => r.assignee.isStr) (format_issue c2issue) = .ok false :=
  ⟨rfl, rfl⟩

/-- C3 (corrected): the normalizer is total on structured issues — on
every issue of the structured family it raises no exception and returns
the expected row (the error branch is unreachable there). -/
theorem C3_total_on_structured (k : Option String) (f : StructFields) :
    format_issue (strIssue k f) = .ok (expectedRow k f) :=
  format_issue_strIssue k f

/-- C3 counterexample: a `status` entry that is present but `null` raises
`AttributeError`, and a component lacking `name` raises `TypeError`, so
normalization is not total on all raw issues. -/
theorem C3_total_counterexample :
    format_issue c3issueStatusNull = .error .attributeError ∧
    format_issue c3issueCompNoName = .error .typeError :=
  ⟨rfl, rfl⟩

/-- C4 (confirmed): on a structured issue with every optional sub-field
absent, the row takes exactly the documented defaults: Assignee
`Unassigned`, Reporter `Unknown`, Status / Priority / Issue Type
`Unknown`, Components and Labels `None` when empty and the `', '` join
when non-empty, Created / Updated / Due Date the empty string. -/
theorem C4_documented_defaults (k : Option String) (comps labs : List String) :
    format_issue (strIssue k
        { emptyFields with components := some comps, labels := some labs }) =
      .ok { key := .str (k.getD "")
            summary := .str ""
            status := .str "Unknown"
            assignee := .str "Unassigned"
            reporter := .str "Unknown"
            priority := .str "Unknown"
            issueType := .str "Unknown"
            components := .str (if comps.isEmpty then "None"
              else String.intercalate ", " comps)
            labels := .str (if labs.isEmpty then "None"
              else String.intercalate ", " labs)
            created := .str ""
            updated := .str ""
            dueDate := .str ""
            description := .str "" } := by
  rw [format_issue_strIssue]
  simp [expectedRow, emptyFields, expPerson, expJoin, expDate10, expDue]

/-- C5 (confirmed): the end-to-end scenario issue normalizes to exactly
the specified row. -/
theorem C5_end_to_end :
    format_issue c5issue =
      .ok { key := .str "P-1"
            summary := .str "Fix bug"
            status := .str "Open"
            assignee := .str "Unassigned"
            reporter := .str "Alice"
            priority := .str "Unknown"
            issueType := .str "Unknown"
            components := .str "API"
            labels := .str "None"
            created := .str "2024-01-05"
            updated := .str ""
            dueDate := .str ""
            description := .str "" } := rfl

/-- C6 (confirmed): each data-sheet column's width is
`min(L + 2, 50)` where `L` is the maximum rendered length of any cell in
the column (header included), and in particular never exceeds 50. -/
theorem C6_column_width (rows : List IssueRow) (j : Fin 13) :
    adjustedWidth (columnCells rows j.val) ≤ 50 ∧
    adjustedWidth (columnCells rows j.val) =
      min ((((columnCells rows j.val).map String.length).foldr max 0) + 2) 50 := by
  constructor
  · exact Nat.min_le_right _ _
  · unfold adjustedWidth
    rw [maxCellLen_eq_foldr]

/-- C7 (confirmed): the summary sheet has exactly the five metric rows,
and the Unique Assignees / Unique Statuses values are the true
cardinalities of the sets of Assignee / Status values over all rows. -/
theorem C7_summary_metrics (rows : List IssueRow) (exportDate projectKey : String) :
    (summarySheet rows exportDate projectKey).length = 5 ∧
    (summarySheet rows exportDate projectKey).map Prod.fst =
      ["Total Issues", "Export Date", "Project", "Unique Assignees",
       "Unique Statuses"] ∧
    List.lookup "Total Issues" (summarySheet rows exportDate projectKey) =
      some (.int rows.length) ∧
    List.lookup "Export Date" (summarySheet rows exportDate projectKey) =
      some (.str exportDate) ∧
    List.lookup "Project" (summarySheet rows exportDate projectKey) =
      some (.str projectKey) ∧
    List.lookup "Unique Assignees" (summarySheet rows exportDate projectKey) =
      some (.int (rows.map IssueRow.assignee).toFinset.card) ∧
    List.lookup "Unique Statuses" (summarySheet rows exportDate projectKey) =
      some (.int (rows.map IssueRow.status).toFinset.card) := by
  refine ⟨rfl, rfl, ?_, ?_, ?_, ?_, ?_⟩ <;>
    simp [summarySheet, uniqueCount, List.lookup_cons, List.card_toFinset]

/-- C8 (confirmed): the exporter writes exactly one data row per input
row, in order — no row is dropped or duplicated. -/
theorem C8_row_count (rows : List IssueRow) :
    (dataRows rows).length = rows.length ∧
    (dataSheet rows).length = rows.length + 1 ∧
    ∀ i : Fin rows.length,
      (dataRows rows).get ⟨i.val, by simp [dataRows]⟩ =
        renderRow (rows.get i) := by
  refine ⟨List.length_map _ _, by simp [dataSheet, dataRows], ?_⟩
  intro i
  simp [dataRows]

/-- C9 (confirmed): a transport-level failure or a 4xx/5xx response makes the
query executor return `None`; a success response returns the parsed JSON
body. -/
theorem C9_query_failure (jql_query : String) (max_results : Nat) :
    (∀ msg, get_jira_issues jql_query max_results (.transportError msg) =
      Option.none) ∧
    (∀ status body, raise_for_status_fails status = true →
      get_jira_issues jql_query max_results (.response status body) =
        Option.none) ∧
    (∀ status body, raise_for_status_fails status = false →
      get_jira_issues jql_query max_results (.response status body) =
        some body) := by
  refine ⟨fun msg => rfl, ?_, ?_⟩ <;> intro status body h <;>
    simp [get_jira_issues, h]

/-- C9 witness: a 500 response yields `None`; a 200 response yields the
parsed body. -/
theorem C9_query_failure_witness :
    get_jira_issues "project = X" 50 (.response 500 (.dict [])) = Option.none ∧
    get_jira_issues "project = X" 50 (.response 200 (.dict [("total", .int 0)])) =
      some (.dict [("total", .int 0)]) :=
  ⟨(C9_query_failure "project = X" 50).2.1 500 (.dict []) (by decide),
   (C9_query_failure "project = X" 50).2.2 200 (.dict [("total", .int 0)]) (by decide)⟩

/-- C10 (confirmed): the batch normalizer yields the empty list when the
result set has no `issues` key, yields one row per issue in order when it
succeeds, and an issue without `fields` yields the complete all-defaults
row with its key. -/
theorem C10_batch_shape (d : List (String × PyVal)) (issues : List PyVal)
    (rows : List IssueRow) (key : String) :
    (List.lookup "issues" d = Option.none →
      format_issue_data (.dict d) = .ok []) ∧
    (format_issue_data (.dict (("issues", .list issues) :: d)) = .ok rows →
      rows.length = issues.length ∧
      ∀ i : Fin issues.length, ∀ hi : i.val < rows.length,
        format_issue (issues.get i) = .ok (rows.get ⟨i.val, hi⟩)) ∧
    format_issue (.dict [("key", .str key)]) = .ok (defaultRow key) := by
  refine ⟨?_, ?_, rfl⟩
  · intro h
    simp [format_issue_data, PyVal.get, h, pyIter, Bind.bind, Except.bind,
      pure_except, format_issues_loop]
  · intro h
    have hh : format_issues_loop issues = .ok rows := by
      simpa [format_issue_data, PyVal.get, List.lookup_cons, pyIter,
        Bind.bind, Except.bind] using h
    exact format_issues_loop_ok issues rows hh

/-- C10 witness: a result set without `issues` yields `[]`, and a
one-issue result set yields exactly one row. -/
theorem C10_batch_shape_witness :
    format_issue_data (.dict []) = .ok [] ∧
    ([defaultRow ""] : List IssueRow).length = ([PyVal.dict []] : List PyVal).length :=
  ⟨(C10_batch_shape [] [] [] "K").1 rfl,
   ((C10_batch_shape [] [.dict []] [defaultRow ""] "K").2.1 (by rfl)).1⟩
